import Mathlib

/-!
Verification of the request/websocket base abstraction
(`quart/wrappers/base.py`, class `BaseRequestWebsocket`).

The data model and the derived properties (`endpoint`, `blueprint`,
`blueprints`, `max_content_length`, `script_root`) are translated from the
source.  Two pieces live outside the excerpt and are modelled from the spec:
the helper `_split_blueprint_path` (from `quart.helpers`) and the ambient
application context `current_app` (from `quart.globals`).
-/

namespace Quart

/-- Header collection: an ordered multimap from names to values.
`get` performs a case-insensitive lookup of the first matching entry,
mirroring `werkzeug.datastructures.Headers.get`. -/
structure Headers where
  entries : List (String × String)
deriving DecidableEq

def Headers.get (h : Headers) (key : String) : Option String :=
  (h.entries.find? (fun kv => kv.1.toLower == key.toLower)).map (fun kv => kv.2)

/-- A value stored in the ASGI scope map: either a plain text entry or a
server address pair, as in `scope.get("server")`. -/
inductive ScopeValue where
  | text : String → ScopeValue
  | serverAddr : String → Option Nat → ScopeValue
deriving DecidableEq

/-- The ASGI scope: an opaque map of connection metadata.  `get` is Python
`dict.get`: the value at the key, or absence. -/
structure Scope where
  entries : List (String × ScopeValue)
deriving DecidableEq

def Scope.get (s : Scope) (key : String) : Option ScopeValue :=
  (s.entries.find? (fun kv => kv.1 == key)).map (fun kv => kv.2)

/-- The slice of `QuartRule` this class reads: the matched rule string and
its dot-qualified endpoint name. -/
structure QuartRule where
  rule : String
  endpoint : String
deriving DecidableEq

/-- View arguments produced by route matching (`Dict[str, Any]`,
modelled with string values since this class never inspects them). -/
abbrev ViewArgs := List (String × String)

/-- `BaseRequestWebsocket`: the immutable construction-time fields (those of
the `werkzeug` sans-io base plus `http_version` and `scope`) and the mutable
routing-result fields, whose class-level defaults are all `None`. -/
structure BaseRequestWebsocket where
  method : String
  scheme : String
  server : Option ScopeValue
  root_path : String
  path : String
  query_string : List Nat
  headers : Headers
  remote_addr : Option String
  http_version : String
  scope : Scope
  routing_exception : Option String
  url_rule : Option QuartRule
  view_args : Option ViewArgs
deriving DecidableEq

/-- `BaseRequestWebsocket.__init__`: forwards to the base initializer with
`scope.get("server")` and `headers.get("Remote-Addr")` (the base stores each
argument unchanged), then stores `http_version` and `scope`.  The routing
fields keep their class-level `None` defaults. -/
def BaseRequestWebsocket.init (method scheme path : String)
    (query_string : List Nat) (headers : Headers)
    (root_path http_version : String) (scope : Scope) :
    BaseRequestWebsocket :=
  { method := method
    scheme := scheme
    server := scope.get "server"
    root_path := root_path
    path := path
    query_string := query_string
    headers := headers
    remote_addr := headers.get "Remote-Addr"
    http_version := http_version
    scope := scope
    routing_exception := none
    url_rule := none
    view_args := none }

/-- The resolver's successful-match write: `request.url_rule = rule` and
`request.view_args = args`, set together (plain attribute assignment on one
instance). -/
def set_matched (r : BaseRequestWebsocket) (rule : QuartRule)
    (va : ViewArgs) : BaseRequestWebsocket :=
  { r with url_rule := some rule, view_args := some va }

/-- Python `"." in s` on the characters of `s`. -/
def containsDot (s : String) : Bool :=
  s.data.contains '.'

/-- Python `s.rsplit(".", 1)[0]`: the part of `s` before the last `'.'`
(everything, i.e. `""` after dropping all of `s`, when `s` has no dot;
only ever applied when a dot is present). -/
def rsplitHead (s : String) : String :=
  String.mk (((s.data.reverse.dropWhile (fun c => !(c == '.'))).drop 1).reverse)

/-- Join character-list components with `'.'` separators. -/
def joinDots : List (List Char) → List Char
  | [] => []
  | [p] => p
  | p :: q :: rest => p ++ '.' :: joinDots (q :: rest)

/-- Split a character list at every `'.'`. -/
def splitDots : List Char → List Char → List (List Char)
  | [], acc => [acc.reverse]
  | c :: rest, acc =>
    if c = '.' then acc.reverse :: splitDots rest []
    else splitDots rest (c :: acc)

/-- Modelled from the spec: `_split_blueprint_path` from `quart.helpers` is
imported by the `blueprints` property but its source is not in the excerpt.
Per the spec it is a pure function mapping a dotted blueprint name to the
ordered chain of its dot-separated prefixes, from the most specific
(current) blueprint upward to the root. -/
def split_blueprint_path (name : String) : List String :=
  let parts := splitDots name.data []
  ((List.range parts.length).map
    (fun i => String.mk (joinDots (parts.take (i + 1))))).reverse

/-- Modelled from the spec: the ambient application context (`current_app`
from `quart.globals`, not in the excerpt) with its configuration, a
read-only lookup of named integer configuration values; per the spec the
lookup reports absence rather than erroring. -/
structure AppContext where
  config : List (String × Int)
deriving DecidableEq

def AppContext.configLookup (app : AppContext) (key : String) : Option Int :=
  (app.config.find? (fun kv => kv.1 == key)).map (fun kv => kv.2)

/-- `max_content_length`: `current_app.config["MAX_CONTENT_LENGTH"] if
current_app else None`.  The ambient context is passed explicitly. -/
def max_content_length (ctx : Option AppContext)
    (_r : BaseRequestWebsocket) : Option Int :=
  match ctx with
  | some app => app.configLookup "MAX_CONTENT_LENGTH"
  | none => none

/-- `endpoint`: `self.url_rule.endpoint if self.url_rule is not None else
None`. -/
def endpoint (r : BaseRequestWebsocket) : Option String :=
  match r.url_rule with
  | some rule => some rule.endpoint
  | none => none

/-- `blueprint`: `self.endpoint.rsplit(".", 1)[0]` when the endpoint is
present and contains a `'.'`, else `None`. -/
def blueprint (r : BaseRequestWebsocket) : Option String :=
  match endpoint r with
  | some e => if containsDot e then some (rsplitHead e) else none
  | none => none

/-- `blueprints`: `[]` when `blueprint` is `None`, else
`_split_blueprint_path(self.blueprint)`. -/
def blueprints (r : BaseRequestWebsocket) : List String :=
  match blueprint r with
  | none => []
  | some b => split_blueprint_path b

/-- `script_root`: returns `self.root_path`. -/
def script_root (r : BaseRequestWebsocket) : String :=
  r.root_path

/-- The result of reading one of the derived properties. -/
inductive DerivedValue where
  | optInt : Option Int → DerivedValue
  | optStr : Option String → DerivedValue
  | strList : List String → DerivedValue
  | str : String → DerivedValue
deriving DecidableEq

/-- Names of the derived properties of the class. -/
inductive DerivedProp where
  | maxContentLength
  | endpointP
  | blueprintP
  | blueprintsP
  | scriptRoot
deriving DecidableEq

/-- Reading a derived property, with Python's exception channel made
explicit: an access either returns a value (`Except.ok`) or raises
(`Except.error`).  Each property body is total — attribute reads, `rsplit`,
`in`, the splitter and the spec-modelled config lookup cannot raise — so
every branch is `ok`. -/
def accessDerived (p : DerivedProp) (ctx : Option AppContext)
    (r : BaseRequestWebsocket) : Except String DerivedValue :=
  match p with
  | .maxContentLength => .ok (.optInt (max_content_length ctx r))
  | .endpointP => .ok (.optStr (endpoint r))
  | .blueprintP => .ok (.optStr (blueprint r))
  | .blueprintsP => .ok (.strList (blueprints r))
  | .scriptRoot => .ok (.str (script_root r))

/-- A sample freshly constructed request used for concrete evaluations. -/
def sampleFresh : BaseRequestWebsocket :=
  BaseRequestWebsocket.init "GET" "http" "/x" [] ⟨[]⟩ "" "1.1" ⟨[]⟩

/-- Sample rules and matched requests used for concrete evaluations. -/
def ruleABC : QuartRule :=
  ⟨"/abc", "a.b.c"⟩

def sampleABC : BaseRequestWebsocket :=
  set_matched sampleFresh ruleABC []

def ruleAdmin : QuartRule :=
  ⟨"/admin/users", "admin.users.list"⟩

def sampleAdmin : BaseRequestWebsocket :=
  set_matched sampleFresh ruleAdmin []

def ruleIndex : QuartRule :=
  ⟨"/", "index"⟩

def sampleIndex : BaseRequestWebsocket :=
  set_matched sampleFresh ruleIndex []

def ruleDotList : QuartRule :=
  ⟨"/l", ".list"⟩

def sampleDotList : BaseRequestWebsocket :=
  set_matched sampleFresh ruleDotList []

def ruleA : QuartRule :=
  ⟨"/a", "bp.view"⟩

def ruleB : QuartRule :=
  ⟨"/b", "bp.view"⟩

def sampleR1 : BaseRequestWebsocket :=
  set_matched
    (BaseRequestWebsocket.init "GET" "http" "/a" []
      ⟨[("Remote-Addr", "1.2.3.4")]⟩ "" "1.1" ⟨[]⟩)
    ruleA [("x", "1")]

def sampleR2 : BaseRequestWebsocket :=
  set_matched
    (BaseRequestWebsocket.init "POST" "https" "/b" [63] ⟨[]⟩ "/root" "2"
      ⟨[("server", ScopeValue.serverAddr "srv" (some 80))]⟩)
    ruleB []

/-- A sample application context with `MAX_CONTENT_LENGTH` configured. -/
def sampleApp : AppContext :=
  ⟨[("MAX_CONTENT_LENGTH", 1048576)]⟩

/-- If `dropWhile p` produces a cons, its head falsifies `p`. -/
theorem dropWhileHeadFalse {α : Type} (p : α → Bool) (l : List α) (c : α)
    (rest : List α) (h : l.dropWhile p = c :: rest) : p c = false := by
  induction l with
  | nil => simp [List.dropWhile] at h
  | cons a as ih =>
    rw [List.dropWhile_cons] at h
    by_cases hpa : p a = true
    · rw [if_pos hpa] at h
      exact ih h
    · rw [if_neg hpa] at h
      cases h
      simpa using hpa

/-- Characterisation of Python `s.rsplit(".", 1)[0]` when `s` contains a
dot: it is the prefix of `s` before a dot whose suffix holds no further
dot, i.e. the prefix before the *last* dot. -/
theorem rsplitHeadSpec (s : String) (h : containsDot s = true) :
    ∃ tail : List Char,
      s.data = (rsplitHead s).data ++ '.' :: tail ∧ '.' ∉ tail := by
  have hmem : '.' ∈ s.data.reverse := by
    rw [List.mem_reverse]
    simpa [containsDot] using h
  have hdne : s.data.reverse.dropWhile (fun c => !(c == '.')) ≠ [] := by
    intro hnil
    rw [List.dropWhile_eq_nil_iff] at hnil
    simpa using hnil '.' hmem
  obtain ⟨c, rest, hcons⟩ := List.exists_cons_of_ne_nil hdne
  have hc : c = '.' := by
    have := dropWhileHeadFalse _ _ _ _ hcons
    simpa using this
  subst hc
  refine ⟨(s.data.reverse.takeWhile (fun c => !(c == '.'))).reverse, ?_, ?_⟩
  · have hsplit : s.data.reverse.takeWhile (fun c => !(c == '.')) ++ '.' :: rest
        = s.data.reverse := by
      rw [← hcons]
      exact List.takeWhile_append_dropWhile _ _
    have hr : (rsplitHead s).data = rest.reverse := by
      simp [rsplitHead, hcons]
    calc s.data = s.data.reverse.reverse := (List.reverse_reverse _).symm
      _ = (s.data.reverse.takeWhile (fun c => !(c == '.')) ++ '.' :: rest).reverse := by
          rw [hsplit]
      _ = ('.' :: rest).reverse
            ++ (s.data.reverse.takeWhile (fun c => !(c == '.'))).reverse := by
          rw [List.reverse_append]
      _ = (rsplitHead s).data
            ++ '.' :: (s.data.reverse.takeWhile (fun c => !(c == '.'))).reverse := by
          rw [List.reverse_cons, hr]
          simp
  · intro hmem2
    rw [List.mem_reverse] at hmem2
    have := List.mem_takeWhile_imp hmem2
    simp at this

/-- Claim C1: a freshly constructed `BaseRequestWebsocket`, on which the
resolver has not run (`url_rule`, `view_args`, `routing_exception` at their
defaults), has absent `endpoint`, absent `blueprint`, empty `blueprints`,
and absent `view_args`. -/
theorem fresh_request_defaults (m sch p : String) (qs : List Nat)
    (hs : Headers) (rp hv : String) (sc : Scope) :
    (BaseRequestWebsocket.init m sch p qs hs rp hv sc).url_rule = none ∧
    (BaseRequestWebsocket.init m sch p qs hs rp hv sc).routing_exception = none ∧
    endpoint (BaseRequestWebsocket.init m sch p qs hs rp hv sc) = none ∧
    blueprint (BaseRequestWebsocket.init m sch p qs hs rp hv sc) = none ∧
    blueprints (BaseRequestWebsocket.init m sch p qs hs rp hv sc) = [] ∧
    (BaseRequestWebsocket.init m sch p qs hs rp hv sc).view_args = none :=
  ⟨rfl, rfl, rfl, rfl, rfl, rfl⟩

/-- Claim C2: for a request matched to a rule with endpoint `e`, if `e`
contains a dot then `blueprint` is the prefix of `e` before the last dot
(the suffix after that dot holds no further dot); if `e` has no dot then
`blueprint` is absent. -/
theorem blueprint_before_last_dot (r : BaseRequestWebsocket)
    (rule : QuartRule) (h : r.url_rule = some rule) :
    (containsDot rule.endpoint = true →
      blueprint r = some (rsplitHead rule.endpoint) ∧
      ∃ tail : List Char,
        rule.endpoint.data = (rsplitHead rule.endpoint).data ++ '.' :: tail ∧
        '.' ∉ tail) ∧
    (containsDot rule.endpoint = false → blueprint r = none) := by
  constructor
  · intro hdot
    exact ⟨by simp [blueprint, endpoint, h, hdot], rsplitHeadSpec rule.endpoint hdot⟩
  · intro hdot
    simp [blueprint, endpoint, h, hdot]

/-- Witness for C2 at the endpoint `"a.b.c"`: the blueprint splits on the
last dot, yielding `"a.b"`. -/
theorem blueprint_before_last_dot_witness :
    blueprint sampleABC = some "a.b" := by
  have h := (blueprint_before_last_dot sampleABC ruleABC rfl).1 (by decide)
  rw [h.1]
  decide

/-- Claim C3: with the matched rule at endpoint `"admin.users.list"`,
`endpoint` is that string, `blueprint` is `"admin.users"` and `blueprints`
is `["admin.users", "admin"]` (current-to-root); with endpoint `"index"`
(no dot), `blueprint` is absent and `blueprints` is empty. -/
theorem resolver_concrete_examples :
    endpoint sampleAdmin = some "admin.users.list" ∧
    blueprint sampleAdmin = some "admin.users" ∧
    blueprints sampleAdmin = ["admin.users", "admin"] ∧
    blueprint sampleIndex = none ∧
    blueprints sampleIndex = [] := by
  decide

/-- Claim C4: `max_content_length` is absent when no application context is
active, and equals the configured `MAX_CONTENT_LENGTH` integer when a
context is active with that key set; absence of a context is not an
error. -/
theorem max_content_length_context (ctx : Option AppContext)
    (r : BaseRequestWebsocket) :
    (ctx = none → max_content_length ctx r = none) ∧
    ∀ app v, ctx = some app →
      AppContext.configLookup app "MAX_CONTENT_LENGTH" = some v →
      max_content_length ctx r = some v := by
  constructor
  · intro h
    subst h
    rfl
  · intro app v hctx hlook
    subst hctx
    simpa [max_content_length] using hlook

/-- Witness for C4 with `MAX_CONTENT_LENGTH = 1048576` configured, and with
no active context. -/
theorem max_content_length_context_witness :
    max_content_length (some sampleApp) sampleFresh = some 1048576 ∧
    max_content_length none sampleFresh = none :=
  ⟨(max_content_length_context (some sampleApp) sampleFresh).2 sampleApp
      1048576 rfl (by decide),
    (max_content_length_context none sampleFresh).1 rfl⟩

/-- Claim C5: `script_root` equals exactly the `root_path` string passed at
construction, for every input including the empty string. -/
theorem script_root_eq_root_path (m sch p : String) (qs : List Nat)
    (hs : Headers) (rp hv : String) (sc : Scope) :
    script_root (BaseRequestWebsocket.init m sch p qs hs rp hv sc) = rp :=
  rfl

/-- Claim C6: for every request, every state of its mutable fields and
every ambient application context, reading any of the derived properties
returns a value and never raises. -/
theorem derived_access_never_raises (p : DerivedProp)
    (ctx : Option AppContext) (r : BaseRequestWebsocket) :
    ∃ v, accessDerived p ctx r = Except.ok v := by
  cases p <;> exact ⟨_, rfl⟩

/-- Claim C7: two requests built from identical inputs are independent:
after the resolver writes the matched rule into the first, the second still
has its unmatched defaults (`url_rule` absent, `endpoint` and `blueprint`
absent, `blueprints` empty). -/
theorem requests_independent (m sch p : String) (qs : List Nat)
    (hs : Headers) (rp hv : String) (sc : Scope) (rule : QuartRule)
    (va : ViewArgs) :
    endpoint (set_matched (BaseRequestWebsocket.init m sch p qs hs rp hv sc)
        rule va) = some rule.endpoint ∧
    (BaseRequestWebsocket.init m sch p qs hs rp hv sc).url_rule = none ∧
    endpoint (BaseRequestWebsocket.init m sch p qs hs rp hv sc) = none ∧
    blueprint (BaseRequestWebsocket.init m sch p qs hs rp hv sc) = none ∧
    blueprints (BaseRequestWebsocket.init m sch p qs hs rp hv sc) = [] :=
  ⟨rfl, rfl, rfl, rfl, rfl⟩

/-- Claim C8: when the matched endpoint contains a dot but the part before
the last dot is empty, `blueprint` is the present empty string (not
absent), and `blueprints` applies the splitter to `""` instead of
returning the empty list. -/
theorem blueprint_empty_string_present (r : BaseRequestWebsocket)
    (rule : QuartRule) (h : r.url_rule = some rule)
    (hdot : containsDot rule.endpoint = true)
    (hpre : rsplitHead rule.endpoint = "") :
    blueprint r = some "" ∧
    blueprints r = split_blueprint_path "" ∧
    blueprints r ≠ [] := by
  have hb : blueprint r = some "" := by
    simp [blueprint, endpoint, h, hdot, hpre]
  refine ⟨hb, ?_, ?_⟩
  · simp [blueprints, hb]
  · simp [blueprints, hb]
    decide

/-- Witness for C8 at the endpoint `".list"`. -/
theorem blueprint_empty_string_present_witness :
    blueprint sampleDotList = some "" ∧
    blueprints sampleDotList = split_blueprint_path "" ∧
    blueprints sampleDotList ≠ [] :=
  blueprint_empty_string_present sampleDotList ruleDotList rfl (by decide)
    (by decide)

/-- Claim C9: construction succeeds when the scope lacks a `"server"` entry
and the headers lack a `"Remote-Addr"` entry: both lookups yield absence,
passed through to the base initializer, and `http_version` and `scope` are
stored unchanged. -/
theorem init_missing_server_remote_addr (m sch p : String) (qs : List Nat)
    (hs : Headers) (rp hv : String) (sc : Scope)
    (hserver : Scope.get sc "server" = none)
    (hremote : Headers.get hs "Remote-Addr" = none) :
    (BaseRequestWebsocket.init m sch p qs hs rp hv sc).server = none ∧
    (BaseRequestWebsocket.init m sch p qs hs rp hv sc).remote_addr = none ∧
    (BaseRequestWebsocket.init m sch p qs hs rp hv sc).http_version = hv ∧
    (BaseRequestWebsocket.init m sch p qs hs rp hv sc).scope = sc :=
  ⟨hserver, hremote, rfl, rfl⟩

/-- Witness for C9: empty scope and empty headers. -/
theorem init_missing_server_remote_addr_witness :
    sampleFresh.server = none ∧
    sampleFresh.remote_addr = none ∧
    sampleFresh.http_version = "1.1" ∧
    sampleFresh.scope = ⟨[]⟩ :=
  init_missing_server_remote_addr "GET" "http" "/x" [] ⟨[]⟩ "" "1.1" ⟨[]⟩
    (by decide) (by decide)

/-- Claim C10: `blueprint` and `blueprints` depend only on the endpoint
string of the matched rule: two requests whose matched rules have equal
endpoint strings agree on both, whatever every other field holds. -/
theorem blueprint_only_depends_on_endpoint (r1 r2 : BaseRequestWebsocket)
    (ru1 ru2 : QuartRule) (h1 : r1.url_rule = some ru1)
    (h2 : r2.url_rule = some ru2) (he : ru1.endpoint = ru2.endpoint) :
    blueprint r1 = blueprint r2 ∧ blueprints r1 = blueprints r2 := by
  have hend : endpoint r1 = endpoint r2 := by
    simp [endpoint, h1, h2, he]
  have hb : blueprint r1 = blueprint r2 := by
    unfold blueprint
    rw [hend]
  refine ⟨hb, ?_⟩
  unfold blueprints
  rw [hb]

/-- Witness for C10: two requests differing in method, scheme, path, query,
headers, root path, version, scope, rule string and view args, but sharing
the endpoint `"bp.view"`. -/
theorem blueprint_only_depends_on_endpoint_witness :
    blueprint sampleR1 = blueprint sampleR2 ∧
    blueprints sampleR1 = blueprints sampleR2 :=
  blueprint_only_depends_on_endpoint sampleR1 sampleR2 ruleA ruleB rfl rfl rfl

end Quart
